import Mathlib

/-!
Verification of the Audiobookshelf calibre plugin (src/action.py, src/config.py)
against its natural-language specification.

The Python code is shallowly embedded: Python runtime values become the
inductive `PyVal`; Python exceptions become `Except String`; Python floats are
modelled as exact rationals (no claim under consideration depends on binary
floating-point rounding); the calibre metadata store visible to the plugin
is an association list from lookup names to `PyVal`.
-/

namespace ABS

/-- Model of the Python runtime values that flow through the plugin:
`None`, bools, ints, floats (as rationals), strings, lists, 2-tuples
(series pairs), dicts with string keys (JSON payloads), and datetimes
(represented by their integer timestamp). -/
inductive PyVal where
  | none
  | bool (b : Bool)
  | int (n : Int)
  | float (q : ℚ)
  | str (s : String)
  | list (xs : List PyVal)
  | pair (a b : PyVal)
  | dict (kvs : List (String × PyVal))
  | dt (ts : Int)

/-- Python `type(x)` tags, used for the `type(old_value) != type(value)`
test in action.py line 511. -/
inductive PyType where
  | noneT | boolT | intT | floatT | strT | listT | tupleT | dictT | dtT
deriving DecidableEq, Repr

def pyTypeOf : PyVal → PyType
  | .none => .noneT
  | .bool _ => .boolT
  | .int _ => .intT
  | .float _ => .floatT
  | .str _ => .strT
  | .list _ => .listT
  | .pair _ _ => .tupleT
  | .dict _ => .dictT
  | .dt _ => .dtT

/-- Python `x is None`. -/
def pyIsNone : PyVal → Bool
  | .none => true
  | _ => false

def pyIsList : PyVal → Bool
  | .list _ => true
  | _ => false

/-- Python `isinstance(x, str)`. -/
def pyIsInstStr : PyVal → Bool
  | .str _ => true
  | _ => false

/-- Python `isinstance(x, bool)`. -/
def pyIsInstBool : PyVal → Bool
  | .bool _ => true
  | _ => false

/-- Python `isinstance(x, int)`: true for bools as well, since `bool` is a
subclass of `int` in Python. -/
def pyIsInstInt : PyVal → Bool
  | .int _ => true
  | .bool _ => true
  | _ => false

/-- Python `isinstance(x, float)`. -/
def pyIsInstFloat : PyVal → Bool
  | .float _ => true
  | _ => false

/-- Numeric view shared by Python `bool`/`int`/`float` for `==` and `<`. -/
def pyNumQ : PyVal → Option ℚ
  | .bool b => some (if b then 1 else 0)
  | .int n => some (n : ℚ)
  | .float q => some q
  | _ => Option.none

mutual

/-- Python `==` on the modelled values: numeric types compare by value across
`bool`/`int`/`float`; containers compare element-wise; values of unrelated
types compare unequal. -/
def pyEq : PyVal → PyVal → Bool
  | .none, .none => true
  | .str s, .str t => s == t
  | .list xs, .list ys => pyEqList xs ys
  | .pair a b, .pair c d => pyEq a c && pyEq b d
  | .dict ps, .dict qs => pyEqKVs ps qs
  | .dt a, .dt b => a == b
  | x, y =>
    match pyNumQ x, pyNumQ y with
    | some a, some b => decide (a = b)
    | _, _ => false

def pyEqList : List PyVal → List PyVal → Bool
  | [], [] => true
  | x :: xs, y :: ys => pyEq x y && pyEqList xs ys
  | _, _ => false

def pyEqKVs : List (String × PyVal) → List (String × PyVal) → Bool
  | [], [] => true
  | (k, v) :: ps, (k2, v2) :: qs => k == k2 && pyEq v v2 && pyEqKVs ps qs
  | _, _ => false

end

/-- Python truthiness (`bool(x)` / `if x:`). -/
def pyTruthy : PyVal → Bool
  | .none => false
  | .bool b => b
  | .int n => decide (n ≠ 0)
  | .float q => decide (q ≠ 0)
  | .str s => !(s == "")
  | .list xs => !xs.isEmpty
  | .pair _ _ => true
  | .dict kvs => !kvs.isEmpty
  | .dt _ => true

mutual

/-- Python `repr(x)` for the value shapes the plugin renders (strings are
quoted inside containers). Escaping inside strings and binary-float
formatting are abstracted. -/
def pyRepr : PyVal → String
  | .none => "None"
  | .bool b => if b then "True" else "False"
  | .int n => toString n
  | .float q => if q.den == 1 then toString q.num ++ (".0") else toString q
  | .str s => "\x27" ++ s ++ "\x27"
  | .list xs => "[" ++ pyReprList xs ++ "]"
  | .pair a b => "(" ++ pyRepr a ++ (", ") ++ pyRepr b ++ ")"
  | .dict kvs => "\x7b" ++ pyReprKVs kvs ++ "\x7d"
  | .dt ts => "datetime(" ++ toString ts ++ ")"

def pyReprList : List PyVal → String
  | [] => ""
  | [x] => pyRepr x
  | x :: xs => pyRepr x ++ (", ") ++ pyReprList xs

def pyReprKVs : List (String × PyVal) → String
  | [] => ""
  | [(k, v)] => "\x27" ++ k ++ "\x27: " ++ pyRepr v
  | (k, v) :: kvs => "\x27" ++ k ++ "\x27: " ++ pyRepr v ++ (", ") ++ pyReprKVs kvs

end

/-- Python `str(x)`: identity on strings, `repr`-style rendering otherwise. -/
def pyStr : PyVal → String
  | .str s => s
  | v => pyRepr v

/-- Python `str.strip()`: drop whitespace from both ends. -/
def pyStrip (s : String) : String :=
  String.mk (((s.data.dropWhile Char.isWhitespace).reverse.dropWhile Char.isWhitespace).reverse)

/-- Association-list lookup keyed by strings; `Option.none` when absent. -/
def assocGet (l : List (String × PyVal)) (k : String) : Option PyVal :=
  (l.find? (fun p => p.1 == k)).map (fun p => p.2)

/-- Python `dict.get(k)` (default `None`) on an association list. -/
def dGet (l : List (String × PyVal)) (k : String) : PyVal :=
  (assocGet l k).getD PyVal.none

/-- Replace the binding of `k` (or append it), mirroring `d[k] = v`. -/
def assocSet (l : List (String × PyVal)) (k : String) (v : PyVal) : List (String × PyVal) :=
  match l with
  | [] => [(k, v)]
  | (k2, v2) :: rest => if k2 == k then (k, v) :: rest else (k2, v2) :: assocSet rest k v

/-- `AudiobookshelfAction.get_nested_value` (action.py lines 320-328): walk
`path` through nested dicts; `None` as soon as the current node is `None` or
not a dict; a missing key yields the dict-get default `None`. Total by
construction, so it can never raise. -/
def get_nested_value (data : PyVal) (path : List String) : PyVal :=
  match path with
  | [] => data
  | k :: ks =>
    if pyIsNone data then PyVal.none
    else
      match data with
      | .dict kvs => get_nested_value (dGet kvs k) ks
      | _ => PyVal.none

/-- A path is blocked in a payload (the spec's "any path segment is missing
or the traversed node is not a mapping"): some step of the walk starts from a
non-dict node, or looks up a key the dict does not carry. -/
def pathBlocked : PyVal → List String → Bool
  | _, [] => false
  | .dict kvs, k :: ks =>
    if (assocGet kvs k).isNone then true else pathBlocked (dGet kvs k) ks
  | _, _ :: _ => true

/-- C8: for every column descriptor with a non-empty path and every payload,
the nested path lookup (`get_nested_value`) returns null whenever any path
segment is missing or a traversed node is not a mapping; the function is
total, so it never raises. -/
theorem c8_nested_lookup_blocked_is_none (data : PyVal) (path : List String)
    (h : pathBlocked data path = true) :
    get_nested_value data path = PyVal.none := by
  induction path generalizing data with
  | nil => simp [pathBlocked] at h
  | cons k ks ih =>
    cases data with
    | dict kvs =>
      rw [pathBlocked] at h
      by_cases hk : (assocGet kvs k).isNone
      · have hnone : dGet kvs k = PyVal.none := by
          unfold dGet
          cases hfind : assocGet kvs k with
          | none => rfl
          | some v => rw [hfind] at hk; simp at hk
        show get_nested_value (dGet kvs k) ks = PyVal.none
        rw [hnone]
        cases ks with
        | nil => rfl
        | cons k2 ks2 => rfl
      · rw [if_neg hk] at h
        exact ih _ h
    | none => rfl
    | bool b => rfl
    | int n => rfl
    | float q => rfl
    | str s => rfl
    | list xs => rfl
    | pair a b => rfl
    | dt ts => rfl

/-- Witness for C8: a payload missing the segment `"b"` resolves to null. -/
theorem c8_nested_lookup_blocked_is_none_witness :
    pathBlocked (PyVal.dict [("a", PyVal.int 1)]) ["b"] = true ∧
    get_nested_value (PyVal.dict [("a", PyVal.int 1)]) ["b"] = PyVal.none :=
  ⟨by decide, c8_nested_lookup_blocked_is_none _ _ (by decide)⟩

/-! ## Value coercion (`ABSSyncWorker.run`, action.py lines 509-531) -/

/-- Truncation toward zero, Python `int()` applied to a numeric value. -/
def ratTrunc (q : ℚ) : Int :=
  if q < 0 then -(((-q).num.toNat / q.den : Nat) : Int)
  else ((q.num.toNat / q.den : Nat) : Int)

/-- Parse a decimal integer literal the way Python `int(str)` does
(surrounding whitespace, optional sign, all digits). -/
def parseIntStr (s : String) : Option Int :=
  let t := (pyStrip s).data
  let core : List Char → Option Int := fun digits =>
    if digits.isEmpty || !digits.all Char.isDigit then Option.none
    else some ((digits.foldl (fun a c => a * 10 + (c.toNat - 48)) 0 : Nat) : Int)
  match t with
  | [] => Option.none
  | c :: rest =>
    if c == '-' then (core rest).map (fun n => -n)
    else if c == '+' then core rest
    else core t

/-- Parse a decimal literal with an optional fractional part, the way Python
`float(str)` does for plain decimal notation. -/
def parseFloatStr (s : String) : Option ℚ :=
  let t := (pyStrip s).data
  let digitsVal : List Char → Nat := fun ds => ds.foldl (fun a c => a * 10 + (c.toNat - 48)) 0
  let core : List Char → Option ℚ := fun cs =>
    match cs.span (fun c => !(c == '.')) with
    | (intPart, []) =>
      if intPart.isEmpty || !intPart.all Char.isDigit then Option.none
      else some ((digitsVal intPart : ℚ))
    | (intPart, _dot :: fracPart) =>
      if (intPart.isEmpty && fracPart.isEmpty) ||
          !intPart.all Char.isDigit || !fracPart.all Char.isDigit then Option.none
      else some ((digitsVal intPart : ℚ) + (digitsVal fracPart : ℚ) / ((10 : ℚ) ^ fracPart.length))
  match t with
  | [] => Option.none
  | c :: rest =>
    if c == '-' then (core rest).map (fun q => -q)
    else if c == '+' then core rest
    else core t

/-- Python `int(x)`: truncates floats, parses strings, maps bools to 0/1;
raises `TypeError`/`ValueError` otherwise. -/
def pyIntOf : PyVal → Except String PyVal
  | .bool b => .ok (.int (if b then 1 else 0))
  | .int n => .ok (.int n)
  | .float q => .ok (.int (ratTrunc q))
  | .str s =>
    match parseIntStr s with
    | some n => .ok (.int n)
    | Option.none => .error ("ValueError")
  | _ => .error ("TypeError")

/-- Python `float(x)`. -/
def pyFloatOf : PyVal → Except String PyVal
  | .bool b => .ok (.float (if b then 1 else 0))
  | .int n => .ok (.float (n : ℚ))
  | .float q => .ok (.float q)
  | .str s =>
    match parseFloatStr s with
    | some q => .ok (.float q)
    | Option.none => .error ("ValueError")
  | _ => .error ("TypeError")

/-- Python subscript `x[i]` for the shapes reachable in the coercion code:
strings yield one-character strings, lists and tuples index their elements. -/
def pySub (v : PyVal) (i : Nat) : Except String PyVal :=
  match v with
  | .str s =>
    match s.data[i]? with
    | some c => .ok (.str (String.mk [c]))
    | Option.none => .error ("IndexError")
  | .list xs =>
    match xs[i]? with
    | some x => .ok x
    | Option.none => .error ("IndexError")
  | .pair a b =>
    if i == 0 then .ok a else if i == 1 then .ok b else .error ("IndexError")
  | .dict _ => .error ("KeyError")
  | _ => .error ("TypeError")

/-- Python `', '.join(xs)`: concatenates string elements, `TypeError` on a
non-string element. -/
def pyJoin : List PyVal → Except String String
  | [] => .ok ("")
  | [.str s] => .ok s
  | .str s :: rest =>
    match pyJoin rest with
    | .ok r => .ok (s ++ (", ") ++ r)
    | .error e => .error e
  | _ => .error ("TypeError")

/-- The `datatype` field of the column registry entries
(config.py `CUSTOM_COLUMN_DEFAULTS`). -/
inductive PDatatype where
  | text | comments | series | intCol | floatCol | boolCol | datetimeCol | rating
deriving DecidableEq, Repr

/-- The type-coercion cascade of `ABSSyncWorker.run` (action.py lines
511-525): when the resolved value's runtime type differs from the current
destination value's, join lists into strings for string destinations, special-
case series pairs, convert through `bool`/`int`/`float` after the destination's
type, and fall back to `str()` otherwise. The series branch mirrors Python's
short-circuit `and` in line 516 (`value[1]` is only evaluated when
`old_value == value[0]`). -/
def coerceValue (dtp : PDatatype) (old oldIdx value : PyVal) : Except String PyVal :=
  if pyTypeOf old ≠ pyTypeOf value then
    if pyIsInstStr old && pyIsList value then
      match value with
      | .list xs =>
        match pyJoin xs with
        | .ok j => .ok (.str j)
        | .error e => .error e
      | _ => .error ("TypeError")
    else if dtp = PDatatype.series then
      match pySub value 0 with
      | .error e => .error e
      | .ok v0 =>
        if pyEq old v0 then
          match pySub value 1 with
          | .error e => .error e
          | .ok v1 => if pyEq oldIdx v1 then .ok old else .ok value
        else .ok value
    else if pyIsInstBool old then .ok (.bool (pyTruthy value))
    else if pyIsInstInt old then pyIntOf value
    else if pyIsInstFloat old then pyFloatOf value
    else .ok (.str (pyStr value))
  else .ok value

/-- Line 526-527: `if isinstance(value, str): value = value.strip()`. -/
def stripIfStr : PyVal → PyVal
  | .str s => .str (pyStrip s)
  | v => v

/-- One column's staging decision after the value has been resolved and
transformed (action.py lines 509-529): skip `None`, coerce against the current
destination value, strip strings, and stage the value only when it differs
from the current one under Python `==`. Returns `some staged` when the column
would be written, `none` when it is skipped. -/
def stageResolved (dtp : PDatatype) (old oldIdx value : PyVal) :
    Except String (Option PyVal) :=
  if pyIsNone value then .ok Option.none
  else
    match coerceValue dtp old oldIdx value with
    | .error e => .error e
    | .ok v =>
      let w := stripIfStr v
      if pyEq old w then .ok Option.none else .ok (some w)

/-- The destination value after `update_metadata` applies a staged value
(action.py lines 310-314): a tuple is split into the column value and its
series index (`metadata.set(key, v[0], extra=v[1])`); anything else is
written as-is. -/
def updMain (w : PyVal) : PyVal :=
  match w with
  | .pair a _ => a
  | w => w

/-- The series-index value after `update_metadata` applies a staged value. -/
def updIndex (w oldIdx : PyVal) : PyVal :=
  match w with
  | .pair _ b => b
  | _ => oldIdx

/-- The condition under which the coercion cascade reaches its final
`value = str(value)` branch (action.py lines 524-525): the current value is
not a string, the column is not a series column, and the current value is not
bool/int/float. -/
def strFallback (dtp : PDatatype) (old : PyVal) : Bool :=
  !pyIsInstStr old && !(decide (dtp = PDatatype.series)) && !pyIsInstBool old &&
    !pyIsInstInt old && !pyIsInstFloat old

/-- C10: for a column whose datatype is not series, if the current
destination value is `None` and the resolver produced a non-`None` candidate,
the coercion cascade falls through to the string fallback: the staged value is
the whitespace-stripped `str()` rendering of the candidate, for every candidate
shape (lists, ints, floats, bools, datetimes included). -/
theorem c10_none_destination_string_fallback (dtp : PDatatype) (oldIdx value : PyVal)
    (hdt : dtp ≠ PDatatype.series) (hv : pyIsNone value = false) :
    stageResolved dtp PyVal.none oldIdx value =
      .ok (some (PyVal.str (pyStrip (pyStr value)))) := by
  cases value with
  | none => simp [pyIsNone] at hv
  | bool b =>
    simp [stageResolved, pyIsNone, coerceValue, pyTypeOf, pyIsInstStr, pyIsList,
      pyIsInstBool, pyIsInstInt, pyIsInstFloat, hdt, stripIfStr, pyEq, pyNumQ]
  | int n =>
    simp [stageResolved, pyIsNone, coerceValue, pyTypeOf, pyIsInstStr, pyIsList,
      pyIsInstBool, pyIsInstInt, pyIsInstFloat, hdt, stripIfStr, pyEq, pyNumQ]
  | float q =>
    simp [stageResolved, pyIsNone, coerceValue, pyTypeOf, pyIsInstStr, pyIsList,
      pyIsInstBool, pyIsInstInt, pyIsInstFloat, hdt, stripIfStr, pyEq, pyNumQ]
  | str s =>
    simp [stageResolved, pyIsNone, coerceValue, pyTypeOf, pyIsInstStr, pyIsList,
      pyIsInstBool, pyIsInstInt, pyIsInstFloat, hdt, stripIfStr, pyEq, pyNumQ, pyStr]
  | list xs =>
    simp [stageResolved, pyIsNone, coerceValue, pyTypeOf, pyIsInstStr, pyIsList,
      pyIsInstBool, pyIsInstInt, pyIsInstFloat, hdt, stripIfStr, pyEq, pyNumQ]
  | pair a b =>
    simp [stageResolved, pyIsNone, coerceValue, pyTypeOf, pyIsInstStr, pyIsList,
      pyIsInstBool, pyIsInstInt, pyIsInstFloat, hdt, stripIfStr, pyEq, pyNumQ]
  | dict kvs =>
    simp [stageResolved, pyIsNone, coerceValue, pyTypeOf, pyIsInstStr, pyIsList,
      pyIsInstBool, pyIsInstInt, pyIsInstFloat, hdt, stripIfStr, pyEq, pyNumQ]
  | dt ts =>
    simp [stageResolved, pyIsNone, coerceValue, pyTypeOf, pyIsInstStr, pyIsList,
      pyIsInstBool, pyIsInstInt, pyIsInstFloat, hdt, stripIfStr, pyEq, pyNumQ]

/-- Witness for C10: an unset text column receiving the list
`['John', 'Jane']` stages the trimmed `str()` rendering of the list. -/
theorem c10_none_destination_string_fallback_witness :
    PDatatype.text ≠ PDatatype.series ∧
    pyIsNone (PyVal.list [PyVal.str ("John"), PyVal.str ("Jane")]) = false ∧
    stageResolved PDatatype.text PyVal.none PyVal.none
        (PyVal.list [PyVal.str ("John"), PyVal.str ("Jane")]) =
      .ok (some (PyVal.str (pyStrip (pyStr (PyVal.list [PyVal.str ("John"), PyVal.str ("Jane")]))))) :=
  ⟨by decide, by decide,
    c10_none_destination_string_fallback PDatatype.text PyVal.none
      (PyVal.list [PyVal.str ("John"), PyVal.str ("Jane")]) (by decide) (by decide)⟩

/-! ## Helper lemmas about the Python value model -/

mutual

theorem pyEq_refl : ∀ v : PyVal, pyEq v v = true
  | .none => rfl
  | .bool b => by simp [pyEq, pyNumQ]
  | .int n => by simp [pyEq, pyNumQ]
  | .float q => by simp [pyEq, pyNumQ]
  | .str s => by simp [pyEq]
  | .list xs => by rw [pyEq]; exact pyEqList_refl xs
  | .pair a b => by rw [pyEq, pyEq_refl a, pyEq_refl b]; rfl
  | .dict kvs => by rw [pyEq]; exact pyEqKVs_refl kvs
  | .dt ts => by simp [pyEq]

theorem pyEqList_refl : ∀ xs : List PyVal, pyEqList xs xs = true
  | [] => rfl
  | x :: xs => by rw [pyEqList, pyEq_refl x, pyEqList_refl xs]; rfl

theorem pyEqKVs_refl : ∀ kvs : List (String × PyVal), pyEqKVs kvs kvs = true
  | [] => rfl
  | (k, v) :: kvs => by rw [pyEqKVs, pyEq_refl v, pyEqKVs_refl kvs]; simp

end

/-- If a value compares Python-equal to a string, it is that string. -/
theorem pyEq_str_inv {v : PyVal} {s : String} (h : pyEq v (.str s) = true) :
    v = .str s := by
  cases v with
  | str t =>
    have ht : t = s := by simpa [pyEq] using h
    rw [ht]
  | none => simp [pyEq, pyNumQ] at h
  | bool b => simp [pyEq, pyNumQ] at h
  | int n => simp [pyEq, pyNumQ] at h
  | float q => simp [pyEq, pyNumQ] at h
  | list xs => simp [pyEq, pyNumQ] at h
  | pair a b => simp [pyEq, pyNumQ] at h
  | dict kvs => simp [pyEq, pyNumQ] at h
  | dt ts => simp [pyEq, pyNumQ] at h

/-- `int(x)` only ever returns an int. -/
theorem pyIntOf_ok_shape {v u : PyVal} (h : pyIntOf v = .ok u) :
    ∃ m : Int, u = .int m := by
  cases v <;> simp [pyIntOf] at h <;> try exact ⟨_, h.symm⟩
  case str s =>
    rcases hp : parseIntStr s with _ | n <;> rw [hp] at h <;> simp at h
    exact ⟨n, h.symm⟩

/-- `float(x)` only ever returns a float. -/
theorem pyFloatOf_ok_shape {v u : PyVal} (h : pyFloatOf v = .ok u) :
    ∃ m : ℚ, u = .float m := by
  cases v <;> simp [pyFloatOf] at h <;> try exact ⟨_, h.symm⟩
  case str s =>
    rcases hp : parseFloatStr s with _ | q <;> rw [hp] at h <;> simp at h
    exact ⟨q, h.symm⟩

/-- C4 counterexample: reconciliation is not idempotent. A multi-valued
resolver result (the narrators column transform returns a Python list) hitting
an unset (`None`) text destination stages `str(['John'])` in the first run;
after that value is applied, the second run over the same remote data takes the
list-to-string join branch instead and stages `'John'`, a second non-empty
update for the same entity and column. -/
theorem c4_counterexample :
    stageResolved PDatatype.text PyVal.none PyVal.none (PyVal.list [PyVal.str ("John")]) =
      .ok (some (PyVal.str ("[\x27John\x27]"))) ∧
    stageResolved PDatatype.text (PyVal.str ("[\x27John\x27]")) PyVal.none
        (PyVal.list [PyVal.str ("John")]) =
      .ok (some (PyVal.str ("John"))) := by
  constructor <;> rfl

theorem pyIsInstStr_true_iff {v : PyVal} : pyIsInstStr v = true ↔ ∃ s, v = .str s := by
  cases v <;> simp [pyIsInstStr]

theorem pyIsList_true_iff {v : PyVal} : pyIsList v = true ↔ ∃ xs, v = .list xs := by
  cases v <;> simp [pyIsList]

theorem pyIsInstBool_true_iff {v : PyVal} : pyIsInstBool v = true ↔ ∃ b, v = .bool b := by
  cases v <;> simp [pyIsInstBool]

theorem pyIsInstInt_not_bool {v : PyVal} (h1 : pyIsInstInt v = true)
    (h2 : pyIsInstBool v = false) : ∃ n, v = .int n := by
  cases v <;> simp_all [pyIsInstInt, pyIsInstBool]

theorem pyIsInstFloat_true_iff {v : PyVal} : pyIsInstFloat v = true ↔ ∃ q, v = .float q := by
  cases v <;> simp [pyIsInstFloat]

/-- Striping preserves the runtime type. -/
theorem pyTypeOf_stripIfStr (v : PyVal) : pyTypeOf (stripIfStr v) = pyTypeOf v := by
  cases v <;> rfl
/-- Inversion of a successful, staging `stageResolved` call: the candidate is
non-`None`, coercion succeeded, the staged value is the stripped coercion
result, and it is Python-unequal to the current value. -/
theorem stageResolved_ok_some_inv {dtp : PDatatype} {old oldIdx value w : PyVal}
    (h : stageResolved dtp old oldIdx value = .ok (some w)) :
    pyIsNone value = false ∧
      ∃ v, coerceValue dtp old oldIdx value = .ok v ∧ w = stripIfStr v ∧
        pyEq old w = false := by
  unfold stageResolved at h
  by_cases hnv : pyIsNone value = true
  · rw [if_pos hnv] at h; cases h
  · rw [if_neg hnv] at h
    refine ⟨by simpa using hnv, ?_⟩
    cases hc : coerceValue dtp old oldIdx value with
    | error e => rw [hc] at h; cases h
    | ok v =>
      rw [hc] at h
      have h2 : (if pyEq old (stripIfStr v) = true then
            (Except.ok Option.none : Except String (Option PyVal))
          else Except.ok (some (stripIfStr v))) = Except.ok (some w) := h
      by_cases he : pyEq old (stripIfStr v) = true
      · rw [if_pos he] at h2; cases h2
      · rw [if_neg he] at h2
        have hww : stripIfStr v = w := by
          have h3 := (Except.ok.injEq _ _).mp h2
          exact (Option.some.injEq _ _).mp h3
        refine ⟨v, rfl, hww.symm, ?_⟩
        rw [← hww]
        simpa using he

/-- Re-running the staging step when the destination already holds the
(stripped) candidate of the same runtime type stages nothing. -/
theorem stage_again_same (dtp : PDatatype) (oldIdx value : PyVal)
    (hnv : pyIsNone value = false) :
    stageResolved dtp (stripIfStr value) oldIdx value = .ok Option.none := by
  cases value with
  | none => simp [pyIsNone] at hnv
  | str s =>
    simp [stageResolved, pyIsNone, coerceValue, stripIfStr, pyTypeOf, pyEq, pyStrip]
  | bool b => simp [stageResolved, pyIsNone, coerceValue, stripIfStr, pyTypeOf, pyEq_refl]
  | int n => simp [stageResolved, pyIsNone, coerceValue, stripIfStr, pyTypeOf, pyEq_refl]
  | float q => simp [stageResolved, pyIsNone, coerceValue, stripIfStr, pyTypeOf, pyEq_refl]
  | list xs => simp [stageResolved, pyIsNone, coerceValue, stripIfStr, pyTypeOf, pyEq_refl]
  | pair a b => simp [stageResolved, pyIsNone, coerceValue, stripIfStr, pyTypeOf, pyEq_refl]
  | dict kvs => simp [stageResolved, pyIsNone, coerceValue, stripIfStr, pyTypeOf, pyEq_refl]
  | dt ts => simp [stageResolved, pyIsNone, coerceValue, stripIfStr, pyTypeOf, pyEq_refl]

/-- Re-running the staging step after a list was joined into a string
destination stages nothing: the join is recomputed and agrees. -/
theorem stage_again_join (dtp : PDatatype) (oldIdx : PyVal) (xs : List PyVal) (j : String)
    (hj : pyJoin xs = .ok j) :
    stageResolved dtp (.str (pyStrip j)) oldIdx (.list xs) = .ok Option.none := by
  simp [stageResolved, pyIsNone, coerceValue, pyTypeOf, pyIsInstStr, pyIsList, hj,
    stripIfStr, pyEq]

/-- Re-running the staging step after a series pair `(name, number)` with a
whitespace-free name was applied (name into the column, number into its index)
stages nothing. -/
theorem stage_again_series (n : String) (q : ℚ) (hn : pyStrip n = n) :
    stageResolved PDatatype.series (.str n) (.float q)
      (.pair (.str n) (.float q)) = .ok Option.none := by
  simp [stageResolved, pyIsNone, coerceValue, pyTypeOf, pyIsInstStr, pyIsList, pySub,
    pyEq, pyNumQ, stripIfStr, hn]

/-- Re-running the staging step on a bool destination stages nothing: the
truthiness of the unchanged candidate is recomputed and agrees. -/
theorem stage_again_bool (dtp : PDatatype) (oldIdx value : PyVal)
    (hS : dtp ≠ PDatatype.series) (hT : pyTypeOf value ≠ PyType.boolT)
    (hnv : pyIsNone value = false) :
    stageResolved dtp (.bool (pyTruthy value)) oldIdx value = .ok Option.none := by
  have hT2 : pyTypeOf (PyVal.bool (pyTruthy value)) ≠ pyTypeOf value := by
    simpa [pyTypeOf] using fun hx => hT hx.symm
  simp [stageResolved, hnv, coerceValue, hT2, pyIsInstStr, pyIsInstBool, hS,
    stripIfStr, pyEq, pyNumQ]

/-- Re-running the staging step on an int destination stages nothing:
`int(candidate)` is recomputed and agrees. -/
theorem stage_again_int (dtp : PDatatype) (oldIdx value : PyVal) (m : Int)
    (hS : dtp ≠ PDatatype.series) (hT : pyTypeOf value ≠ PyType.intT)
    (hnv : pyIsNone value = false) (hI : pyIntOf value = .ok (.int m)) :
    stageResolved dtp (.int m) oldIdx value = .ok Option.none := by
  have hT2 : pyTypeOf (PyVal.int m) ≠ pyTypeOf value := by
    simpa [pyTypeOf] using fun hx => hT hx.symm
  simp [stageResolved, hnv, coerceValue, hT2, pyIsInstStr, pyIsInstBool, pyIsInstInt,
    hS, hI, stripIfStr, pyEq, pyNumQ]

/-- Re-running the staging step on a float destination stages nothing:
`float(candidate)` is recomputed and agrees. -/
theorem stage_again_float (dtp : PDatatype) (oldIdx value : PyVal) (m : ℚ)
    (hS : dtp ≠ PDatatype.series) (hT : pyTypeOf value ≠ PyType.floatT)
    (hnv : pyIsNone value = false) (hF : pyFloatOf value = .ok (.float m)) :
    stageResolved dtp (.float m) oldIdx value = .ok Option.none := by
  have hT2 : pyTypeOf (PyVal.float m) ≠ pyTypeOf value := by
    simpa [pyTypeOf] using fun hx => hT hx.symm
  simp [stageResolved, hnv, coerceValue, hT2, pyIsInstStr, pyIsInstBool, pyIsInstInt,
    pyIsInstFloat, hS, hF, stripIfStr, pyEq, pyNumQ]

/-- Re-running the staging step after the `str()` fallback wrote the stripped
rendering of a non-string, non-list candidate stages nothing: the rendering is
recomputed and agrees. -/
theorem stage_again_strfb (dtp : PDatatype) (oldIdx value : PyVal)
    (hS : dtp ≠ PDatatype.series) (hTs : pyTypeOf value ≠ PyType.strT)
    (hTl : pyIsList value = false) (hnv : pyIsNone value = false) :
    stageResolved dtp (.str (pyStrip (pyStr value))) oldIdx value = .ok Option.none := by
  have hT2 : pyTypeOf (PyVal.str (pyStrip (pyStr value))) ≠ pyTypeOf value := by
    simpa [pyTypeOf] using fun hx => hTs hx.symm
  simp [stageResolved, hnv, coerceValue, hT2, pyIsInstStr, hTl, hS, pyIsInstBool,
    pyIsInstInt, pyIsInstFloat, stripIfStr, pyEq]

/-- C4 (amended): per-column idempotence of reconciliation. If a column stages
value `w` and `update_metadata` applies it (tuple values split into column and
series index), then re-running the same column over the same resolved candidate
stages nothing — except in the two situations the code cannot replay: (i) a
list candidate whose coercion fell through to the `str()` fallback (the second
run takes the list-join branch instead, see `c4_counterexample`); and (ii)
series candidates are assumed to be `(stripped name, number)` pairs, the only
shape the registry's series transform produces. -/
theorem c4_amended_per_column_idempotent
    (dtp : PDatatype) (old oldIdx value w : PyVal)
    (h1 : stageResolved dtp old oldIdx value = .ok (some w))
    (h2 : ¬(pyIsList value = true ∧ strFallback dtp old = true ∧
        pyTypeOf old ≠ PyType.listT))
    (h3 : ∀ a b, value = PyVal.pair a b →
        dtp = PDatatype.series ∧ ∃ n q, a = PyVal.str n ∧ b = PyVal.float q ∧
          pyStrip n = n) :
    stageResolved dtp (updMain w) (updIndex w oldIdx) value = .ok Option.none := by
  obtain ⟨hnv, v, hc, hw, hne⟩ := stageResolved_ok_some_inv h1
  by_cases hT : pyTypeOf old = pyTypeOf value
  · -- types equal: no coercion, the candidate itself was staged
    have hcoe : coerceValue dtp old oldIdx value = .ok value := by
      unfold coerceValue
      rw [if_neg (by simpa using hT)]
    rw [hcoe] at hc
    injection hc with hv
    subst hv
    cases value with
    | none => simp [pyIsNone] at hnv
    | pair a b =>
      obtain ⟨hS, n, q, ha, hb, hn⟩ := h3 a b rfl
      subst hS; subst ha; subst hb
      have hwv : w = .pair (.str n) (.float q) := by simpa [stripIfStr] using hw
      subst hwv
      simpa [updMain, updIndex] using stage_again_series n q hn
    | str s =>
      subst hw
      simpa [updMain, updIndex, stripIfStr] using
        stage_again_same dtp oldIdx (.str s) hnv
    | bool b =>
      subst hw
      simpa [updMain, updIndex, stripIfStr] using
        stage_again_same dtp oldIdx (.bool b) hnv
    | int n =>
      subst hw
      simpa [updMain, updIndex, stripIfStr] using
        stage_again_same dtp oldIdx (.int n) hnv
    | float q =>
      subst hw
      simpa [updMain, updIndex, stripIfStr] using
        stage_again_same dtp oldIdx (.float q) hnv
    | list xs =>
      subst hw
      simpa [updMain, updIndex, stripIfStr] using
        stage_again_same dtp oldIdx (.list xs) hnv
    | dict kvs =>
      subst hw
      simpa [updMain, updIndex, stripIfStr] using
        stage_again_same dtp oldIdx (.dict kvs) hnv
    | dt ts =>
      subst hw
      simpa [updMain, updIndex, stripIfStr] using
        stage_again_same dtp oldIdx (.dt ts) hnv
  · -- types differ: walk the coercion cascade
    have hT2 : pyTypeOf old ≠ pyTypeOf value := hT
    by_cases hB1 : (pyIsInstStr old && pyIsList value) = true
    · -- list joined into a string destination
      rw [Bool.and_eq_true] at hB1
      obtain ⟨hos, hvl⟩ := hB1
      obtain ⟨s, hs⟩ := pyIsInstStr_true_iff.mp hos
      obtain ⟨xs, hxs⟩ := pyIsList_true_iff.mp hvl
      subst hs; subst hxs
      cases hj : pyJoin xs with
      | error e =>
        have hce : coerceValue dtp (.str s) oldIdx (.list xs) = .error e := by
          unfold coerceValue
          rw [if_pos hT2]
          simp [pyIsInstStr, pyIsList, hj]
        rw [hce] at hc; cases hc
      | ok j =>
        have hco : coerceValue dtp (.str s) oldIdx (.list xs) = .ok (.str j) := by
          unfold coerceValue
          rw [if_pos hT2]
          simp [pyIsInstStr, pyIsList, hj]
        rw [hco] at hc
        injection hc with hv
        subst hv
        have hwv : w = .str (pyStrip j) := by simpa [stripIfStr] using hw
        subst hwv
        simpa [updMain, updIndex] using stage_again_join dtp oldIdx xs j hj
    · by_cases hS : dtp = PDatatype.series
      · -- series branch
        subst hS
        unfold coerceValue at hc
        rw [if_pos hT2, if_neg hB1, if_pos rfl] at hc
        cases value with
        | none => simp [pyIsNone] at hnv
        | pair a b =>
          obtain ⟨_, n, q, ha, hb, hn⟩ := h3 a b rfl
          subst ha; subst hb
          have h0 : pySub (PyVal.pair (.str n) (.float q)) 0 = .ok (.str n) := by
            simp [pySub]
          simp only [h0] at hc
          by_cases hE : pyEq old (.str n) = true
          · rw [if_pos hE] at hc
            have h1s : pySub (PyVal.pair (.str n) (.float q)) 1 = .ok (.float q) := by
              simp [pySub]
            simp only [h1s] at hc
            by_cases hE2 : pyEq oldIdx (.float q) = true
            · rw [if_pos hE2] at hc
              injection hc with hv
              subst hv
              have hold : old = .str n := pyEq_str_inv hE
              subst hold
              have hwv : w = .str (pyStrip n) := by simpa [stripIfStr] using hw
              rw [hn] at hwv
              subst hwv
              rw [pyEq_refl] at hne
              cases hne
            · rw [if_neg hE2] at hc
              injection hc with hv
              subst hv
              have hwv : w = .pair (.str n) (.float q) := by simpa [stripIfStr] using hw
              subst hwv
              simpa [updMain, updIndex] using stage_again_series n q hn
          · rw [if_neg hE] at hc
            injection hc with hv
            subst hv
            have hwv : w = .pair (.str n) (.float q) := by simpa [stripIfStr] using hw
            subst hwv
            simpa [updMain, updIndex] using stage_again_series n q hn
        | str t =>
          cases hg : t.data[0]? with
          | none =>
            have h0 : pySub (PyVal.str t) 0 = .error ("IndexError") := by
              simp [pySub, hg]
            simp only [h0] at hc
            cases hc
          | some c =>
            have h0 : pySub (PyVal.str t) 0 = .ok (.str (String.mk [c])) := by
              simp [pySub, hg]
            simp only [h0] at hc
            have hE : ¬pyEq old (.str (String.mk [c])) = true := by
              intro hx
              have hxo := pyEq_str_inv hx
              rw [hxo] at hT2
              simp [pyTypeOf] at hT2
            rw [if_neg hE] at hc
            injection hc with hv
            subst hv
            subst hw
            simpa [updMain, updIndex, stripIfStr] using
              stage_again_same PDatatype.series oldIdx (.str t) hnv
        | list xs =>
          cases xs with
          | nil =>
            have h0 : pySub (PyVal.list []) 0 = .error ("IndexError") := by
              simp [pySub]
            simp only [h0] at hc
            cases hc
          | cons x0 rest =>
            have h0 : pySub (PyVal.list (x0 :: rest)) 0 = .ok x0 := by
              simp [pySub]
            simp only [h0] at hc
            have hos : pyIsInstStr old = false := by
              cases hq2 : pyIsInstStr old with
              | false => rfl
              | true => exact absurd (by simp [hq2, pyIsList]) hB1
            by_cases hE : pyEq old x0 = true
            · rw [if_pos hE] at hc
              cases rest with
              | nil =>
                have h1s : pySub (PyVal.list [x0]) 1 = .error ("IndexError") := by
                  simp [pySub]
                simp only [h1s] at hc
                cases hc
              | cons x1 rest2 =>
                have h1s : pySub (PyVal.list (x0 :: x1 :: rest2)) 1 = .ok x1 := by
                  simp [pySub]
                simp only [h1s] at hc
                by_cases hE2 : pyEq oldIdx x1 = true
                · rw [if_pos hE2] at hc
                  injection hc with hv
                  subst hv
                  have hws : stripIfStr old = old := by
                    cases old <;> first
                      | rfl
                      | (simp [pyIsInstStr] at hos)
                  rw [hws] at hw
                  subst hw
                  rw [pyEq_refl] at hne
                  cases hne
                · rw [if_neg hE2] at hc
                  injection hc with hv
                  subst hv
                  subst hw
                  simpa [updMain, updIndex, stripIfStr] using
                    stage_again_same PDatatype.series oldIdx
                      (.list (x0 :: x1 :: rest2)) hnv
            · rw [if_neg hE] at hc
              injection hc with hv
              subst hv
              subst hw
              simpa [updMain, updIndex, stripIfStr] using
                stage_again_same PDatatype.series oldIdx (.list (x0 :: rest)) hnv
        | bool b => simp [pySub] at hc
        | int n => simp [pySub] at hc
        | float q => simp [pySub] at hc
        | dict kvs => simp [pySub] at hc
        | dt ts => simp [pySub] at hc
      · by_cases hB3 : pyIsInstBool old = true
        · obtain ⟨c, hcb⟩ := pyIsInstBool_true_iff.mp hB3
          subst hcb
          unfold coerceValue at hc
          rw [if_pos hT2, if_neg hB1, if_neg hS,
            if_pos (show pyIsInstBool (PyVal.bool c) = true from rfl)] at hc
          injection hc with hv
          subst hv
          subst hw
          have hTb : pyTypeOf value ≠ PyType.boolT := by
            intro hx; exact hT2 (by simpa [pyTypeOf] using hx.symm)
          simpa [updMain, updIndex, stripIfStr] using
            stage_again_bool dtp oldIdx value hS hTb hnv
        · by_cases hB4 : pyIsInstInt old = true
          · obtain ⟨m0, hm0⟩ := pyIsInstInt_not_bool hB4 (by simpa using hB3)
            subst hm0
            unfold coerceValue at hc
            rw [if_pos hT2, if_neg hB1, if_neg hS,
              if_neg (show ¬pyIsInstBool (PyVal.int m0) = true by simp [pyIsInstBool]),
              if_pos (show pyIsInstInt (PyVal.int m0) = true from rfl)] at hc
            obtain ⟨m, hm⟩ := pyIntOf_ok_shape hc
            subst hm
            subst hw
            have hTi : pyTypeOf value ≠ PyType.intT := by
              intro hx; exact hT2 (by simpa [pyTypeOf] using hx.symm)
            simpa [updMain, updIndex, stripIfStr] using
              stage_again_int dtp oldIdx value m hS hTi hnv hc
          · by_cases hB5 : pyIsInstFloat old = true
            · obtain ⟨q0, hq0⟩ := pyIsInstFloat_true_iff.mp hB5
              subst hq0
              unfold coerceValue at hc
              rw [if_pos hT2, if_neg hB1, if_neg hS,
                if_neg (show ¬pyIsInstBool (PyVal.float q0) = true by
                  simp [pyIsInstBool]),
                if_neg (show ¬pyIsInstInt (PyVal.float q0) = true by
                  simp [pyIsInstInt]),
                if_pos (show pyIsInstFloat (PyVal.float q0) = true from rfl)] at hc
              obtain ⟨m, hm⟩ := pyFloatOf_ok_shape hc
              subst hm
              subst hw
              have hTf : pyTypeOf value ≠ PyType.floatT := by
                intro hx; exact hT2 (by simpa [pyTypeOf] using hx.symm)
              simpa [updMain, updIndex, stripIfStr] using
                stage_again_float dtp oldIdx value m hS hTf hnv hc
            · -- str() fallback branch
              unfold coerceValue at hc
              rw [if_pos hT2, if_neg hB1, if_neg hS, if_neg hB3, if_neg hB4,
                if_neg hB5] at hc
              injection hc with hv
              subst hv
              have hwv : w = .str (pyStrip (pyStr value)) := by
                simpa [stripIfStr] using hw
              subst hwv
              cases value with
              | none => simp [pyIsNone] at hnv
              | str t =>
                simpa [updMain, updIndex, pyStr, stripIfStr] using
                  stage_again_same dtp oldIdx (.str t) hnv
              | list xs =>
                exfalso
                apply h2
                refine ⟨rfl, ?_, ?_⟩
                · have hosf : pyIsInstStr old = false := by
                    cases hq2 : pyIsInstStr old with
                    | false => rfl
                    | true => exact absurd (by simp [hq2, pyIsList]) hB1
                  have hb3f : pyIsInstBool old = false := by simpa using hB3
                  have hb4f : pyIsInstInt old = false := by simpa using hB4
                  have hb5f : pyIsInstFloat old = false := by simpa using hB5
                  unfold strFallback
                  simp [hosf, hS, hb3f, hb4f, hb5f]
                · simpa [pyTypeOf] using hT2
              | bool b =>
                simpa [updMain, updIndex] using
                  stage_again_strfb dtp oldIdx (.bool b) hS (by simp [pyTypeOf])
                    (by simp [pyIsList]) (by simp [pyIsNone])
              | int n =>
                simpa [updMain, updIndex] using
                  stage_again_strfb dtp oldIdx (.int n) hS (by simp [pyTypeOf])
                    (by simp [pyIsList]) (by simp [pyIsNone])
              | float q =>
                simpa [updMain, updIndex] using
                  stage_again_strfb dtp oldIdx (.float q) hS (by simp [pyTypeOf])
                    (by simp [pyIsList]) (by simp [pyIsNone])
              | pair a b =>
                simpa [updMain, updIndex] using
                  stage_again_strfb dtp oldIdx (.pair a b) hS (by simp [pyTypeOf])
                    (by simp [pyIsList]) (by simp [pyIsNone])
              | dict kvs =>
                simpa [updMain, updIndex] using
                  stage_again_strfb dtp oldIdx (.dict kvs) hS (by simp [pyTypeOf])
                    (by simp [pyIsList]) (by simp [pyIsNone])
              | dt ts =>
                simpa [updMain, updIndex] using
                  stage_again_strfb dtp oldIdx (.dt ts) hS (by simp [pyTypeOf])
                    (by simp [pyIsList]) (by simp [pyIsNone])

/-- Witness for the amended C4: an int destination holding 3 receiving the
float 4.7 stages 4 on the first run and nothing on the second. -/
theorem c4_amended_per_column_idempotent_witness :
    stageResolved PDatatype.intCol (PyVal.int 3) PyVal.none (PyVal.float (mkRat 47 10)) =
      .ok (some (PyVal.int 4)) ∧
    stageResolved PDatatype.intCol (updMain (PyVal.int 4))
        (updIndex (PyVal.int 4) PyVal.none) (PyVal.float (mkRat 47 10)) = .ok Option.none := by
  constructor
  · rfl
  · exact c4_amended_per_column_idempotent PDatatype.intCol (PyVal.int 3) PyVal.none
      (PyVal.float (mkRat 47 10)) (PyVal.int 4) (by rfl)
      (by intro hx; exact absurd hx.1 (by decide))
      (by intro a b hab; cases hab)
/-! ## The gating policies of `ABSSyncWorker.run` (action.py lines 533-557) -/

/-- The configuration keys `sync_from_audiobookshelf` reads. Lookups through
calibre's `JSONConfig` are modelled as total record fields. -/
structure SyncCfg where
  sync_only_if_more_recent : Bool
  no_sync_if_finished : Bool
  asin_sync : Bool
  col_lastread : String
  col_progress_float : String
  col_progress_int : String
  col_finished : String
  col_status_text : String
  col_status_enum : String
  status_finished_text : String
  status_started_text : String

/-- `CONFIG['column_audiobook_progress_float'] or
CONFIG['column_audiobook_progress_int']` (action.py line 546): Python `or`
takes the first truthy (non-empty) string. -/
def progressKey (cfg : SyncCfg) : String :=
  if cfg.col_progress_float ≠ "" then cfg.col_progress_float else cfg.col_progress_int

/-- Python `x.timestamp()`: defined on datetimes only. -/
def pyTimestamp : PyVal → Except String Int
  | .dt ts => .ok ts
  | _ => .error ("AttributeError")

/-- Python `a > b` for the value shapes reachable in the guard: numeric
cross-type comparison, lexicographic on strings, `TypeError` otherwise
(in particular `None > 0` raises). -/
def pyGtB (a b : PyVal) : Except String Bool :=
  match a, b with
  | .str s, .str t => .ok (decide (t < s))
  | a, b =>
    match pyNumQ a, pyNumQ b with
    | some x, some y => .ok (decide (y < x))
    | _, _ => .error ("TypeError")

/-- The monotonic-progress guard (action.py lines 535-557), applied after
staging and before `update_metadata`: compare "last read" timestamps when both
sides have one; when no new timestamp was staged, fall back to comparing the
progress column; `some reason` means the entity is skipped with that log
entry. -/
def guardCheck (cfg : SyncCfg) (md kvs : List (String × PyVal)) :
    Except String (Option String) :=
  if cfg.sync_only_if_more_recent then
    let current_lastread := dGet md cfg.col_lastread
    let new_lastread := dGet kvs cfg.col_lastread
    if !pyIsNone current_lastread && !pyIsNone new_lastread then
      match pyTimestamp current_lastread with
      | .error e => .error e
      | .ok tc =>
        match pyTimestamp new_lastread with
        | .error e => .error e
        | .ok tn =>
          if tc ≥ tn then .ok (some ("Data in calibre is more recent"))
          else .ok Option.none
    else if pyIsNone new_lastread then
      let current_progress := dGet md (progressKey cfg)
      let new_progress := dGet kvs (progressKey cfg)
      if !pyIsNone current_progress && !pyIsNone new_progress then
        match pyGtB current_progress new_progress with
        | .error e => .error e
        | .ok true => .ok (some ("Progress is lower than in calibre"))
        | .ok false => .ok Option.none
      else if !pyIsNone current_progress && pyIsNone new_progress then
        .ok (some ("No Progress found"))
      else .ok Option.none
    else .ok Option.none
  else .ok Option.none

/-- C3: when the monotonic-progress guard is enabled and no "last read"
timestamp exists on either side, the guard falls back to the progress-percent
columns and skips (reason `'Progress is lower than in calibre'`) exactly when
the staged percentage is not greater than the current one. The hypothesis
`n ≠ c` is guaranteed by staging: `stageResolved` only stages values that
differ from the current one (see `stageResolved_ok_some_inv`). -/
theorem c3_progress_guard_skips_lower (cfg : SyncCfg)
    (md kvs : List (String × PyVal)) (c n : ℚ)
    (hEn : cfg.sync_only_if_more_recent = true)
    (hcl : dGet md cfg.col_lastread = PyVal.none)
    (hnl : dGet kvs cfg.col_lastread = PyVal.none)
    (hcp : dGet md (progressKey cfg) = PyVal.float c)
    (hnp : dGet kvs (progressKey cfg) = PyVal.float n)
    (hne : n ≠ c) :
    (guardCheck cfg md kvs = .ok (some ("Progress is lower than in calibre"))
      ↔ n ≤ c) := by
  unfold guardCheck
  rw [hEn]
  simp only [if_true, hcl, hnl, hcp, hnp, pyIsNone, Bool.not_false, Bool.not_true,
    Bool.and_false, Bool.false_and, Bool.and_self, Bool.false_eq_true, if_false,
    if_true, pyGtB, pyNumQ]
  constructor
  · intro h
    by_cases hlt : n < c
    · exact le_of_lt hlt
    · rw [decide_eq_false hlt] at h
      simp at h
  · intro h
    have hlt : n < c := lt_of_le_of_ne h hne
    rw [decide_eq_true hlt]

/-- Witness for C3: current percent 40, staged candidate 30 — the guard skips
with the code's reason string. -/
theorem c3_progress_guard_skips_lower_witness :
    guardCheck
        { sync_only_if_more_recent := true, no_sync_if_finished := false,
          asin_sync := false, col_lastread := "#abs_lastread",
          col_progress_float := "#abs_progfloat", col_progress_int := "",
          col_finished := "", col_status_text := "", col_status_enum := "",
          status_finished_text := "finished", status_started_text := "started" }
        [("#abs_progfloat", PyVal.float 40)] [("#abs_progfloat", PyVal.float 30)] =
      .ok (some ("Progress is lower than in calibre")) :=
  (c3_progress_guard_skips_lower _ _ _ 40 30 rfl (by rfl) (by rfl) (by rfl) (by rfl)
    (by norm_num)).mpr (by norm_num)

/-! ## Session aggregation (`sync_from_audiobookshelf`, action.py lines 396-432) -/

/-- One raw listening session as returned by the sessions endpoint. -/
structure RawSession where
  date : String
  timeListening : ℚ
  currentTime : ℚ
  startTime : ℚ
  updatedAt : Int
  startedAt : Int
  duration : ℚ

/-- One derived session dict as built in action.py lines 404-413. -/
structure DSession where
  date : String
  timeListening : ℚ
  progression : ℚ
  sessionDuration : ℚ
  cleanSession : Bool
  isComplete : Bool
  durationRemaining : Int
  sessionSpeed : ℚ

/-- Per-session derivation (action.py lines 404-413): `progression` =
currentTime − startTime; `sessionDuration` = (updatedAt − startedAt)/1000;
`sessionSpeed` = progression / sessionDuration — a plain Python division with
no zero guard, so a zero session duration raises `ZeroDivisionError`;
`cleanSession` iff the speed lies in [0.8, 4]; `isComplete` iff startTime is 0
and int(currentTime) == int(duration); `durationRemaining` is zeroed at or
under the 300-second threshold. -/
def mkDSession (s : RawSession) : Except String DSession :=
  let progression := s.currentTime - s.startTime
  let sessionDuration : ℚ := ((s.updatedAt : ℚ) - (s.startedAt : ℚ)) / 1000
  if sessionDuration = 0 then .error ("ZeroDivisionError")
  else
    let sessionSpeed := progression / sessionDuration
    .ok { date := s.date
          timeListening := s.timeListening
          progression := progression
          sessionDuration := sessionDuration
          cleanSession := decide ((8/10 : ℚ) ≤ sessionSpeed) && decide (sessionSpeed ≤ 4)
          isComplete := decide (s.startTime = 0) &&
            decide (ratTrunc s.currentTime = ratTrunc s.duration)
          durationRemaining :=
            if ratTrunc (s.duration - s.currentTime) > 300 then
              ratTrunc (s.duration - s.currentTime)
            else 0
          sessionSpeed := sessionSpeed }

/-- The per-item de-duplication rule (action.py lines 414-416): with more than
one session and at least one complete, drop every complete session. -/
def dedupSessions (ss : List DSession) : List DSession :=
  if 1 < ss.length ∧ ss.any (fun s => s.isComplete) = true then
    ss.filter (fun s => !s.isComplete)
  else ss

/-- Python `max(..., default=None)` over the filtered session speeds. -/
def qListMax : List ℚ → Option ℚ
  | [] => Option.none
  | x :: xs =>
    match qListMax xs with
    | Option.none => some x
    | some m => some (max x m)

/-- The per-item aggregate dict (action.py lines 417-432). The three partial
divisions carry the code's guards: average session duration is null when the
filtered list is empty, average speed is null when the filtered duration sums
to zero (Python float truthiness), max speed is null via `default=None`. -/
structure SessionAgg where
  session_count : Nat
  distinct_date_count : Nat
  total_time_listening : ℚ
  total_session_duration : ℚ
  total_progression : ℚ
  filtered_session_count : Nat
  filtered_date_count : Nat
  filtered_time_listening : ℚ
  filtered_session_duration : ℚ
  filtered_progression : ℚ
  filtered_avg_session_duration : Option ℚ
  filtered_avg_speed : Option ℚ
  filtered_max_speed : Option ℚ

def aggregateBase (ss : List DSession) : SessionAgg :=
  { session_count := ss.length
    distinct_date_count := ((ss.map (fun s => s.date)).dedup).length
    total_time_listening := (ss.map (fun s => s.timeListening)).sum
    total_session_duration := (ss.map (fun s => s.sessionDuration)).sum
    total_progression := (ss.map (fun s => s.progression)).sum
    filtered_session_count := (ss.filter (fun s => s.cleanSession)).length
    filtered_date_count :=
      (((ss.filter (fun s => s.cleanSession)).map (fun s => s.date)).dedup).length
    filtered_time_listening :=
      ((ss.filter (fun s => s.cleanSession)).map (fun s => s.timeListening)).sum
    filtered_session_duration :=
      ((ss.filter (fun s => s.cleanSession)).map (fun s => s.sessionDuration)).sum
    filtered_progression :=
      ((ss.filter (fun s => s.cleanSession)).map (fun s => s.progression)).sum
    filtered_avg_session_duration :=
      if (ss.filter (fun s => s.cleanSession)).isEmpty then Option.none
      else
        some (((ss.filter (fun s => s.cleanSession)).map
            (fun s => s.sessionDuration)).sum /
          ((ss.filter (fun s => s.cleanSession)).length : ℚ))
    filtered_avg_speed :=
      if ((ss.filter (fun s => s.cleanSession)).map (fun s => s.sessionDuration)).sum
          = 0 then Option.none
      else
        some (((ss.filter (fun s => s.cleanSession)).map (fun s => s.progression)).sum /
          ((ss.filter (fun s => s.cleanSession)).map (fun s => s.sessionDuration)).sum)
    filtered_max_speed :=
      qListMax ((ss.filter (fun s => s.cleanSession)).map (fun s => s.sessionSpeed)) }

/-- Aggregation of one item's sessions: de-duplicate, then aggregate. -/
def aggregateItem (ss : List DSession) : SessionAgg :=
  aggregateBase (dedupSessions ss)

/-- C6: for an item with more than one session, at least one complete, every
complete session is dropped before aggregation — all raw and filtered sums and
counts range over the non-complete sessions only; in particular both session
counts come from the filtered-down list. -/
theorem c6_complete_sessions_dropped (ss : List DSession)
    (h1 : 1 < ss.length) (h2 : ss.any (fun s => s.isComplete) = true) :
    aggregateItem ss = aggregateBase (ss.filter (fun s => !s.isComplete)) ∧
    (aggregateItem ss).session_count = (ss.filter (fun s => !s.isComplete)).length ∧
    (aggregateItem ss).filtered_session_count =
      ((ss.filter (fun s => !s.isComplete)).filter (fun s => s.cleanSession)).length := by
  have hd : dedupSessions ss = ss.filter (fun s => !s.isComplete) := by
    unfold dedupSessions
    rw [if_pos ⟨h1, h2⟩]
  refine ⟨by rw [aggregateItem, hd], ?_, ?_⟩
  · rw [aggregateItem, hd]; rfl
  · rw [aggregateItem, hd]; rfl

/-- The spec's de-duplication example: one incomplete session of duration 100
(speed 1, clean) and one zero-duration complete marker. -/
def demoSessionA : DSession :=
  { date := "2024-01-01", timeListening := 100, progression := 100,
    sessionDuration := 100, cleanSession := true, isComplete := false,
    durationRemaining := 0, sessionSpeed := 1 }

def demoSessionB : DSession :=
  { date := "2024-01-02", timeListening := 0, progression := 0,
    sessionDuration := 0, cleanSession := false, isComplete := true,
    durationRemaining := 0, sessionSpeed := 0 }

/-- Witness for C6: on `[{complete:false, duration:100}, {complete:true,
duration:0}]` both the raw and the filtered session count equal 1. -/
theorem c6_complete_sessions_dropped_witness :
    1 < ([demoSessionA, demoSessionB].length) ∧
    ([demoSessionA, demoSessionB].any (fun s => s.isComplete) = true) ∧
    (aggregateItem [demoSessionA, demoSessionB]).session_count = 1 ∧
    (aggregateItem [demoSessionA, demoSessionB]).filtered_session_count = 1 := by
  have h := c6_complete_sessions_dropped [demoSessionA, demoSessionB]
    (by decide) (by decide)
  refine ⟨by decide, by decide, ?_, ?_⟩
  · rw [h.2.1]; rfl
  · rw [h.2.2]; rfl

/-- C7 counterexample: the per-session speed division has no zero guard. A
session whose `updatedAt` equals its `startedAt` (zero session duration)
raises `ZeroDivisionError` in `sync_from_audiobookshelf` instead of yielding a
null field. -/
theorem c7_counterexample :
    mkDSession
        { date := "d", timeListening := 0, currentTime := 50,
          startTime := 0, updatedAt := 5000, startedAt := 5000, duration := 100 } =
      .error ("ZeroDivisionError") := by
  unfold mkDSession
  norm_num

/-- C7 (amended): the three aggregate-level divisions are guarded — a zero
filtered duration nulls the average speed, an empty filtered list nulls the
average session duration and the max speed — but the per-session speed
division is not: a zero session duration raises `ZeroDivisionError`. -/
theorem c7_amended_division_guards (ss : List DSession) (raw : RawSession)
    (hz : raw.updatedAt = raw.startedAt) :
    ((aggregateBase ss).filtered_session_duration = 0 →
      (aggregateBase ss).filtered_avg_speed = Option.none) ∧
    (ss.filter (fun s => s.cleanSession) = [] →
      (aggregateBase ss).filtered_avg_session_duration = Option.none ∧
      (aggregateBase ss).filtered_max_speed = Option.none) ∧
    mkDSession raw = .error ("ZeroDivisionError") := by
  refine ⟨?_, ?_, ?_⟩
  · intro h
    have h2 : ((ss.filter (fun s => s.cleanSession)).map
        (fun s => s.sessionDuration)).sum = 0 := h
    simp [aggregateBase, h2]
  · intro h
    constructor
    · simp [aggregateBase, h]
    · simp [aggregateBase, h, qListMax]
  · unfold mkDSession
    rw [hz]
    simp

/-- Witness for the amended C7. -/
theorem c7_amended_division_guards_witness :
    ((aggregateBase []).filtered_session_duration = 0 →
      (aggregateBase []).filtered_avg_speed = Option.none) ∧
    (([] : List DSession).filter (fun s => s.cleanSession) = [] →
      (aggregateBase []).filtered_avg_session_duration = Option.none ∧
      (aggregateBase []).filtered_max_speed = Option.none) ∧
    mkDSession
        { date := "d", timeListening := 0, currentTime := 0,
          startTime := 0, updatedAt := 7, startedAt := 7, duration := 0 } =
      .error ("ZeroDivisionError") :=
  c7_amended_division_guards [] _ rfl

/-! ## Top-level fetch phase of `sync_from_audiobookshelf`
(action.py lines 349-432) and the `Syncing` re-entrancy flag -/

/-- `dict.get(k)` on a Python value that is only a dict on the happy path:
`.get` on `None` (a failed `api_request`) raises `AttributeError`. -/
def dGetE (v : PyVal) (k : String) : Except String PyVal :=
  match v with
  | .dict kvs => .ok (dGet kvs k)
  | _ => .error ("AttributeError")

/-- How the fetch phase of `sync_from_audiobookshelf` ends when it does not
reach the worker: an informational early return (no linked books) or an error
dialog plus early return. `ready` means every needed fetch succeeded and the
worker is started. -/
inductive PreOutcome where
  | noLinkedBooks
  | dialogError (msg : String)
  | ready
deriving DecidableEq, Repr

/-- The fetch phase of `sync_from_audiobookshelf` (action.py lines 349-432),
as a function of the results of the remote calls. `libItems` is the
`get_abs_library_items()` result, `meData` the `/api/me` response,
`collections` the `get_abs_collections` result (`Option.none` when that helper
failed and returned Python `None`), `sessionsResp` the raw `api_request` result
for the listening-sessions call. The three `need*` flags mirror the
`api_sources` membership tests. Mirrors the code faithfully:
`get_abs_collections(...)[0]` subscripts `None` on failure (`TypeError`), and
`api_request(...).get('sessions')` calls `.get` on `None` on transport failure
(`AttributeError`) — the `sessions_response is None` dialog guard only catches
a missing or null `'sessions'` key in a successful response. -/
def syncFetchPhase (hasLinked : Bool)
    (needProgress needCollections needSessions : Bool)
    (libItems : Option (List (String × PyVal)))
    (meData : Option PyVal)
    (collections : Option (List (String × PyVal) × List (String × PyVal)))
    (sessionsResp : Option PyVal) : Except String PreOutcome :=
  if !hasLinked then .ok PreOutcome.noLinkedBooks
  else
    match libItems with
    | Option.none =>
      .ok (PreOutcome.dialogError ("Failed to retrieve Audiobookshelf library data"))
    | some _ =>
      (if needProgress && meData.isNone then
        .ok (PreOutcome.dialogError ("Failed to retrieve Audiobookshelf user data."))
      else if needCollections && collections.isNone then
        .error ("TypeError")
      else if needSessions then
        match sessionsResp with
        | Option.none => .error ("AttributeError")
        | some resp =>
          match dGetE resp ("sessions") with
          | .error e => .error e
          | .ok sessions =>
            if pyIsNone sessions then
              .ok (PreOutcome.dialogError ("Failed to retrieve Audiobookshelf sessions."))
            else .ok PreOutcome.ready
      else .ok PreOutcome.ready)

/-- C2 (evaluated at the failing input): the library-items and user-data
fetch failures produce early error dialogs as the claim says, but a failed
listening-sessions fetch (transport error, `api_request` returns `None`)
raises `AttributeError` out of `sync_from_audiobookshelf` instead of showing
the sessions dialog — the claim is wrong about the third fetch. -/
theorem c2_sessions_fetch_failure_raises :
    syncFetchPhase true false false false Option.none Option.none Option.none
        Option.none =
      .ok (PreOutcome.dialogError ("Failed to retrieve Audiobookshelf library data")) ∧
    syncFetchPhase true true false false (some []) Option.none Option.none
        Option.none =
      .ok (PreOutcome.dialogError ("Failed to retrieve Audiobookshelf user data.")) ∧
    syncFetchPhase true false false true (some []) Option.none Option.none
        Option.none =
      .error ("AttributeError") ∧
    syncFetchPhase true false false true (some []) Option.none Option.none
        (some (PyVal.dict [])) =
      .ok (PreOutcome.dialogError ("Failed to retrieve Audiobookshelf sessions.")) := by
  refine ⟨rfl, rfl, rfl, rfl⟩

/-- The module-level `Syncing` flag after one invocation of
`sync_from_audiobookshelf`: line 350 sets it `True` on entry; the only reset
is `self.Syncing = False` inside `on_finished` (line 579), which runs only
when the worker was started and finished — every early `return` in the fetch
phase leaves the flag set. -/
def syncingAfterRun (pre : Except String PreOutcome) : Bool :=
  match pre with
  | .ok PreOutcome.ready => false
  | _ => true

/-- The change-detection listener guard (action.py lines 246-247): the event
body runs only when `Syncing` is clear and the event is a metadata change. -/
def listenerFires (syncing : Bool) (isMetadataChanged : Bool) : Bool :=
  !syncing && isMetadataChanged

/-- C9 (evaluated at the failing input): after a sync invocation that ended
on an early-exit error path (failed library fetch) no sync batch is running,
yet the `Syncing` flag is still set and a metadata-change event on a watched
column is suppressed; only the completed-run path re-enables the listener. -/
theorem c9_flag_stuck_after_early_exit :
    syncingAfterRun (syncFetchPhase true false false false Option.none Option.none
        Option.none Option.none) = true ∧
    listenerFires
        (syncingAfterRun (syncFetchPhase true false false false Option.none
          Option.none Option.none Option.none)) true = false ∧
    listenerFires
        (syncingAfterRun (syncFetchPhase true false false false (some [])
          Option.none Option.none Option.none)) true = true := by
  refine ⟨rfl, rfl, rfl⟩

/-! ## Quick link (`QuickLinkWorker.run`, action.py lines 744-818) -/

/-- Generic association-list update (`d[k] = v`). -/
def assocSetG {α : Type} (l : List (String × α)) (k : String) (v : α) :
    List (String × α) :=
  match l with
  | [] => [(k, v)]
  | (k2, v2) :: rest => if k2 == k then (k, v) :: rest else (k2, v2) :: assocSetG rest k v

/-- Generic association-list lookup. -/
def assocFindG {α : Type} (l : List (String × α)) (k : String) : Option α :=
  (l.find? (fun p => p.1 == k)).map (fun p => p.2)

/-- One catalog search result (`response['products']` entry). -/
structure CatProduct where
  asin : String
  title : String

/-- One server item carrying an ASIN (`abs_asin_index` entry value). -/
structure AbsRef where
  absId : String
  absTitle : String

/-- The quick-link outcome per unlinked book. `ambiguous` carries the code's
error message; it is never auto-resolved (only `linked` rows get a checked
`Link?` box). -/
inductive QLOutcome where
  | linked (absId : String)
  | ambiguous (msg : String)
  | noMatch
  | missingFields
deriving DecidableEq, Repr

/-- The admission threshold: `difflib.SequenceMatcher(...).ratio() > .5`
(action.py line 770). The similarity function itself is a parameter of the
model. -/
def qlThreshold : ℚ := mkRat 1 2

/-- `title and authors and authors[0] != 'Unknown'` (action.py line 762). -/
def qlFieldsOk (title : String) (authors : List String) : Bool :=
  !(title == "") && !authors.isEmpty && !(authors.headD "" == "Unknown")

/-- Candidates admitted by title similarity above the threshold. -/
def qlAdmitted (sim : String → String → ℚ) (title : String)
    (products : List CatProduct) : List CatProduct :=
  products.filter (fun p => qlThreshold < sim title p.title)

/-- `asin_overlap` (action.py line 770): the set of admitted-candidate ASINs
intersected with the server ASIN set, as a duplicate-free list. -/
def qlOverlap (sim : String → String → ℚ) (title : String)
    (products : List CatProduct) (asinKeys : List String) : List String :=
  (((qlAdmitted sim title products).map (fun p => p.asin)).dedup).filter
    (fun a => asinKeys.contains a)

/-- The outcome classification of `QuickLinkWorker.run` (action.py lines
758-816): missing fields short-circuit; then exactly one intersecting ASIN
carried by exactly one server item links, a shared ASIN or several
intersecting ASINs are ambiguous, and an empty intersection is a no-match. -/
def quickLinkOutcome (sim : String → String → ℚ)
    (absIndex : List (String × List AbsRef))
    (title : String) (authors : List String)
    (products : List CatProduct) : QLOutcome :=
  if qlFieldsOk title authors then
    let overlap := qlOverlap sim title products (absIndex.map Prod.fst)
    if !overlap.isEmpty then
      if overlap.length == 1 then
        let matched := overlap.headD ""
        let lst := (assocFindG absIndex matched).getD []
        if lst.length == 1 then
          QLOutcome.linked ((lst.headD { absId := "", absTitle := "" }).absId)
        else
          QLOutcome.ambiguous
            (toString lst.length ++ (" ABS books with same ASIN, manual match required"))
      else
        QLOutcome.ambiguous
          (toString overlap.length ++ (" possible matches found, manual match required"))
    else QLOutcome.noMatch
  else QLOutcome.missingFields

/-- C5: quick-link classifies every unlinked book as the claim states —
empty title, empty authors or primary author "Unknown" give `missingFields`;
otherwise an empty identifier intersection gives `noMatch`; a unique
intersecting identifier carried by a unique server item gives `linked` to
that item; several intersecting identifiers, or one identifier carried by
several server items, give `ambiguous` and never `linked`. -/
theorem c5_quicklink_classification (sim : String → String → ℚ)
    (absIndex : List (String × List AbsRef))
    (title : String) (authors : List String) (products : List CatProduct) :
    (qlFieldsOk title authors = false →
      quickLinkOutcome sim absIndex title authors products = QLOutcome.missingFields) ∧
    (qlFieldsOk title authors = true →
      qlOverlap sim title products (absIndex.map Prod.fst) = [] →
      quickLinkOutcome sim absIndex title authors products = QLOutcome.noMatch) ∧
    (∀ a i, qlFieldsOk title authors = true →
      qlOverlap sim title products (absIndex.map Prod.fst) = [a] →
      (assocFindG absIndex a).getD [] = [i] →
      quickLinkOutcome sim absIndex title authors products = QLOutcome.linked i.absId) ∧
    (∀ a, qlFieldsOk title authors = true →
      qlOverlap sim title products (absIndex.map Prod.fst) = [a] →
      2 ≤ ((assocFindG absIndex a).getD []).length →
      ∃ msg, quickLinkOutcome sim absIndex title authors products =
        QLOutcome.ambiguous msg) ∧
    (qlFieldsOk title authors = true →
      2 ≤ (qlOverlap sim title products (absIndex.map Prod.fst)).length →
      ∃ msg, quickLinkOutcome sim absIndex title authors products =
        QLOutcome.ambiguous msg) := by
  refine ⟨?_, ?_, ?_, ?_, ?_⟩
  · intro h
    unfold quickLinkOutcome
    rw [h]
    rfl
  · intro h hov
    unfold quickLinkOutcome
    rw [h]
    simp only [if_true, hov]
    rfl
  · intro a i h hov hlst
    unfold quickLinkOutcome
    rw [h]
    simp only [if_true, hov, List.headD, hlst]
    rfl
  · intro a h hov hlen
    unfold quickLinkOutcome
    rw [h]
    simp only [if_true, hov]
    have hne : (((assocFindG absIndex a).getD []).length == 1) = false := by
      have : ((assocFindG absIndex a).getD []).length ≠ 1 := by omega
      simpa using this
    simp only [List.headD, hne]
    exact ⟨_, by rfl⟩
  · intro h hlen
    unfold quickLinkOutcome
    rw [h]
    have hne : ((qlOverlap sim title products (absIndex.map Prod.fst)).length == 1)
        = false := by
      have : (qlOverlap sim title products (absIndex.map Prod.fst)).length ≠ 1 := by
        omega
      simpa using this
    have hempty : (qlOverlap sim title products (absIndex.map Prod.fst)).isEmpty
        = false := by
      cases hq : qlOverlap sim title products (absIndex.map Prod.fst) with
      | nil => rw [hq] at hlen; simp at hlen
      | cons x xs => simp
    simp only [hempty, Bool.not_false, if_true, hne, Bool.false_eq_true, if_false]
    exact ⟨_, rfl⟩

/-- Witness for C5, following the spec's end-to-end example: "Dune" by
"Frank Herbert", one admitted candidate whose ASIN matches exactly one server
item, links to that item; with two server items sharing the ASIN the outcome
is ambiguous. -/
theorem c5_quicklink_classification_witness :
    quickLinkOutcome (fun _ _ => 1) [("B000DUNE", [{ absId := "abs1", absTitle := "Dune" }])]
        ("Dune") ["Frank Herbert"] [{ asin := "B000DUNE", title := "Dune" }] =
      QLOutcome.linked ("abs1") ∧
    (∃ msg,
      quickLinkOutcome (fun _ _ => 1)
          [("B000DUNE", [{ absId := "abs1", absTitle := "Dune" },
            { absId := "abs2", absTitle := "Dune" }])]
          ("Dune") ["Frank Herbert"] [{ asin := "B000DUNE", title := "Dune" }] =
        QLOutcome.ambiguous msg) := by
  constructor
  · exact (c5_quicklink_classification (fun _ _ => 1)
      [("B000DUNE", [{ absId := "abs1", absTitle := "Dune" }])]
      ("Dune") ["Frank Herbert"] [{ asin := "B000DUNE", title := "Dune" }]).2.2.1
      "B000DUNE" { absId := "abs1", absTitle := "Dune" } (by rfl) (by rfl) (by rfl)
  · exact (c5_quicklink_classification (fun _ _ => 1)
      [("B000DUNE", [{ absId := "abs1", absTitle := "Dune" },
        { absId := "abs2", absTitle := "Dune" }])]
      ("Dune") ["Frank Herbert"] [{ asin := "B000DUNE", title := "Dune" }]).2.2.2.1
      "B000DUNE" (by rfl) (by rfl) (by rfl)

/-! ## The sync worker loop (`ABSSyncWorker.run`, action.py lines 444-569) -/

/-- The `api_source` tag of a column registry entry. -/
inductive ApiSource where
  | mediaProgress | libItems | sessions | collections | audible
deriving DecidableEq, Repr

/-- One configured column registry entry (config.py `CUSTOM_COLUMN_DEFAULTS`
joined with the user's column binding). -/
structure ColSpec where
  column_name : String
  column_heading : String
  datatype : PDatatype
  api_source : ApiSource
  data_location : List String
  transform : Option (PyVal → Except String PyVal)

/-- The per-run payload dictionaries built before the worker starts:
`items_dict`, `media_progress_dict`, `sessions_dict`, `collections_dict`. -/
structure GlobalData where
  items : List (String × PyVal)
  mediaProgress : List (String × PyVal)
  sessions : List (String × PyVal)
  collections : List (String × PyVal)

/-- `d.get(abs_id)` where the key is a Python value (a missing or non-string
id finds nothing). -/
def lookupByP (l : List (String × PyVal)) (k : PyVal) : PyVal :=
  match k with
  | .str s => dGet l s
  | _ => PyVal.none

/-- `d.get(abs_id, default)`. -/
def lookupByPD (l : List (String × PyVal)) (k : PyVal) (d : PyVal) : PyVal :=
  match k with
  | .str s => (assocGet l s).getD d
  | _ => d

/-- `mediaProgress` resolution with its two heading-keyed specials (action.py
lines 488-496). The nested lookups `['progress']` and `['isFinished']` are the
`data_location`s of the progress-float and finished registry entries. The
`Audiobook Started` special compares a possibly-`None` progress value with
`>`, which raises `TypeError` when it is missing — mirrored by `pyGtB`. -/
def resolveMP (cfg : SyncCfg) (mp : PyVal) (col : ColSpec) : Except String PyVal :=
  let v := get_nested_value mp col.data_location
  match (if col.column_heading == "Audiobook Started" && pyIsNone v then
      match pyGtB (get_nested_value mp ["progress"]) (PyVal.int 0) with
      | .error e => .error e
      | .ok true => .ok (PyVal.bool true)
      | .ok false => .ok v
    else .ok v : Except String PyVal) with
  | .error e => .error e
  | .ok v2 =>
    if String.startsWith col.column_heading ("Audiobook Status") then
      if pyTruthy (get_nested_value mp ["isFinished"]) then
        .ok (PyVal.str cfg.status_finished_text)
      else
        let percent := get_nested_value mp ["progress"]
        if !pyIsNone percent then
          match pyGtB percent (PyVal.int 0) with
          | .error e => .error e
          | .ok true => .ok (PyVal.str cfg.status_started_text)
          | .ok false => .ok v2
        else .ok v2
    else .ok v2

/-- The `api_source` dispatch of the column loop (action.py lines 485-504).
`Option.none` is the `else: continue` branch for unknown sources. -/
def resolveValue (cfg : SyncCfg) (g : GlobalData) (absId itemData : PyVal)
    (col : ColSpec) : Except String (Option PyVal) :=
  match col.api_source with
  | ApiSource.mediaProgress =>
    match resolveMP cfg (lookupByP g.mediaProgress absId) col with
    | .error e => .error e
    | .ok v => .ok (some v)
  | ApiSource.libItems => .ok (some (get_nested_value itemData col.data_location))
  | ApiSource.sessions =>
    .ok (some (get_nested_value (lookupByPD g.sessions absId (PyVal.dict []))
      col.data_location))
  | ApiSource.collections => .ok (some (lookupByPD g.collections absId (PyVal.list [])))
  | ApiSource.audible => .ok Option.none

/-- One staged column: destination lookup name, staged value, display heading
and the `"old >> new"` change string. -/
structure StagedCol where
  key : String
  value : PyVal
  heading : String
  change : String

/-- The `f"{old if old is not None else '-'} >> {value}"` log rendering
(action.py line 531). -/
def fmtChange (old w : PyVal) : String :=
  (if pyIsNone old then "-" else pyStr old) ++ (" >> ") ++ pyStr w

/-- One column of the per-entity loop (action.py lines 481-531): resolve,
apply the transform — with no `try`/`except` around it, a raising transform
propagates as the worker's exception — then coerce, strip and diff via
`stageResolved`. -/
def stageColumn (cfg : SyncCfg) (g : GlobalData) (absId itemData : PyVal)
    (md : List (String × PyVal)) (col : ColSpec) : Except String (Option StagedCol) :=
  match resolveValue cfg g absId itemData col with
  | .error e => .error e
  | .ok Option.none => .ok Option.none
  | .ok (some value) =>
    if pyIsNone value then .ok Option.none
    else
      match (match col.transform with
             | some f => f value
             | Option.none => .ok value) with
      | .error e => .error e
      | .ok value2 =>
        match stageResolved col.datatype (dGet md col.column_name)
            (dGet md (col.column_name ++ ("_index"))) value2 with
        | .error e => .error e
        | .ok Option.none => .ok Option.none
        | .ok (some w) =>
          .ok (some { key := col.column_name, value := w, heading := col.column_heading,
                      change := fmtChange (dGet md col.column_name) w })

/-- The column loop, accumulating `keys_values_to_update` and the result row's
change entries in order. -/
def stageColumns (cfg : SyncCfg) (g : GlobalData) (absId itemData : PyVal)
    (md : List (String × PyVal)) :
    List ColSpec → List (String × PyVal) → List (String × String) →
    Except String (List (String × PyVal) × List (String × String))
  | [], kvs, log => .ok (kvs, log)
  | c :: cs, kvs, log =>
    match stageColumn cfg g absId itemData md c with
    | .error e => .error e
    | .ok Option.none => stageColumns cfg g absId itemData md cs kvs log
    | .ok (some st) =>
      stageColumns cfg g absId itemData md cs (assocSetG kvs st.key st.value)
        (assocSetG log st.heading st.change)

/-- The finished-skip test (action.py lines 464-469): finished flag truthy, or
the status column equal to the configured finished text. -/
def bookFinished (cfg : SyncCfg) (md : List (String × PyVal)) : Bool :=
  let status_key := if cfg.col_status_text ≠ "" then cfg.col_status_text
    else cfg.col_status_enum
  pyTruthy ((assocGet md cfg.col_finished).getD (PyVal.bool false)) ||
    pyEq ((assocGet md status_key).getD (PyVal.str "")) (PyVal.str cfg.status_finished_text)

/-- The Audible-ASIN identifier staging (action.py lines 471-478):
`item_data.get('media').get('metadata').get('asin')` — each `.get` on a
non-dict raises `AttributeError` — diffed against `identifiers.get('audible')`.
Returns the updated identifiers dict and the log entry when they differ. -/
def asinStage (identifiers itemData : PyVal) :
    Except String (Option (PyVal × String)) :=
  match dGetE itemData ("media") with
  | .error e => .error e
  | .ok m =>
    match dGetE m ("metadata") with
    | .error e => .error e
    | .ok meta =>
      match dGetE meta ("asin") with
      | .error e => .error e
      | .ok asin =>
        let current := (match identifiers with
          | .dict kvs => dGet kvs ("audible")
          | _ => PyVal.none)
        if !pyEq asin current then
          let newIds := (match identifiers with
            | .dict kvs => PyVal.dict (assocSetG kvs ("audible") asin)
            | v => v)
          .ok (some (newIds, fmtChange current asin))
        else .ok Option.none

/-- One book handed to the worker: its calibre metadata snapshot, its uuid,
and whether `lookup_by_uuid` will find it back during `update_metadata`. -/
structure BookEntry where
  md : List (String × PyVal)
  uuid : String
  uuid_ok : Bool

def bookTitle (md : List (String × PyVal)) : String :=
  match assocGet md ("title") with
  | some (.str s) => s
  | _ => "Book"

/-- One iteration of the worker's book loop (action.py lines 449-567):
item lookup, finished-skip, ASIN staging, the column loop, the
monotonic-progress guard, then `update_metadata`. Returns the log rows this
book contributes and the (updated, failed, skipped) counter deltas. Any
Python exception raised inside the iteration — there is no `try`/`except` in
`ABSSyncWorker.run` — surfaces as the `Except.error` of the whole result. -/
def entityBook (cfg : SyncCfg) (cols : List ColSpec) (g : GlobalData)
    (b : BookEntry) :
    Except String (List (List (String × String)) × Nat × Nat × Nat) :=
  let md := b.md
  let t := bookTitle md
  let identifiers := (assocGet md ("identifiers")).getD (PyVal.dict [])
  let absId := (match identifiers with
    | .dict kvs => dGet kvs ("audiobookshelf_id")
    | _ => PyVal.none)
  let itemData := lookupByP g.items absId
  if pyIsNone itemData then
    .ok ([[("title", t), ("error", "Audiobookshelf item not found")]], 0, 0, 1)
  else if cfg.no_sync_if_finished && bookFinished cfg md then
    .ok ([], 0, 0, 1)
  else
    match (if cfg.asin_sync then asinStage identifiers itemData
           else .ok Option.none) with
    | .error e => .error e
    | .ok asinRes =>
      let kvs0 := (match asinRes with
        | some (ids, _) => [(("identifiers" : String), ids)]
        | Option.none => [])
      let log0 := (("title" : String), t) :: (match asinRes with
        | some (_, chg) => [(("Audible ASIN" : String), chg)]
        | Option.none => [])
      match stageColumns cfg g absId itemData md cols kvs0 log0 with
      | .error e => .error e
      | .ok (kvs, log) =>
        if !kvs.isEmpty then
          match guardCheck cfg md kvs with
          | .error e => .error e
          | .ok (some reason) => .ok ([[("title", t), ("skipped", reason)]], 0, 0, 1)
          | .ok Option.none =>
            if b.uuid_ok then .ok ([log], 1, 0, 0)
            else .ok ([log ++ [("error", "Book not found: " ++ b.uuid)]], 0, 1, 0)
        else .ok ([log], 0, 0, 1)

/-- The worker's book loop (`ABSSyncWorker.run`): a fold over the linked
books. There is no exception handling in `run`, so the first raising book
aborts the whole fold — no later book is processed and no summary is
emitted. -/
def runWorker (cfg : SyncCfg) (cols : List ColSpec) (g : GlobalData) :
    List BookEntry → Except String (List (List (String × String)) × Nat × Nat × Nat)
  | [] => .ok ([], 0, 0, 0)
  | b :: bs =>
    match entityBook cfg cols g b with
    | .error e => .error e
    | .ok (rows, s, f, k) =>
      match runWorker cfg cols g bs with
      | .error e => .error e
      | .ok (rows2, s2, f2, k2) => .ok (rows ++ rows2, s + s2, f + f2, k + k2)

/-- A configuration with every optional feature off. -/
def cfgOff : SyncCfg :=
  { sync_only_if_more_recent := false, no_sync_if_finished := false,
    asin_sync := false, col_lastread := "", col_progress_float := "",
    col_progress_int := "", col_finished := "", col_status_text := "",
    col_status_enum := "", status_finished_text := "finished",
    status_started_text := "started" }

/-- The published-year registry entry: `data_location
['media','metadata','publishedYear']`, `transform` `lambda value: int(value)`
(config.py). -/
def pubYearCol : ColSpec :=
  { column_name := "#abs_pubyear", column_heading := "Published Year",
    datatype := PDatatype.intCol, api_source := ApiSource.libItems,
    data_location := ["media", "metadata", "publishedYear"],
    transform := some pyIntOf }

/-- A library item whose publishedYear is a non-numeric string: `int(value)`
raises `ValueError`. -/
def demoItem : PyVal :=
  .dict [("media", .dict [("metadata",
    .dict [("publishedYear", .str ("twenty twenty"))])])]

def demoGlobal : GlobalData :=
  { items := [("it1", demoItem)], mediaProgress := [], sessions := [],
    collections := [] }

def demoBook : BookEntry :=
  { md := [("title", .str ("B")),
      ("identifiers", .dict [("audiobookshelf_id", .str ("it1"))])],
    uuid := "u-1", uuid_ok := true }

/-- C1 counterexample: a raising column transform is not caught. With one
linked book whose publishedYear is the string "twenty twenty", the
`int(value)` transform raises and the whole worker run ends in that
exception — no log row records it, the entity is not skipped, and the
exception escapes `ABSSyncWorker.run` uncaught. -/
theorem c1_counterexample :
    runWorker cfgOff [pubYearCol] demoGlobal [demoBook] = .error ("ValueError") := by
  rfl

/-- C1 (amended): a transform exception is fatal to the batch. The worker
loop has no exception handling, so as soon as one book's iteration raises,
the run result is that exception and the remaining books are never
processed: nothing is converted into a log row. -/
theorem c1_amended_transform_error_aborts_run (cfg : SyncCfg) (cols : List ColSpec)
    (g : GlobalData) (b : BookEntry) (bs : List BookEntry) (e : String)
    (h : entityBook cfg cols g b = .error e) :
    runWorker cfg cols g (b :: bs) = .error e := by
  unfold runWorker
  rw [h]

/-- Witness for the amended C1: with a second book queued behind the raising
one, the run still ends in the `ValueError` — the second book is never
reached. -/
theorem c1_amended_transform_error_aborts_run_witness :
    runWorker cfgOff [pubYearCol] demoGlobal [demoBook, demoBook] =
      .error ("ValueError") :=
  c1_amended_transform_error_aborts_run cfgOff [pubYearCol] demoGlobal demoBook
    [demoBook] ("ValueError") (by rfl)

end ABS
